import Mathlib

/-!
Shallow embedding of the Nexi chat gateway
(src/netlify/functions/nexichat.js): the knowledge-base cache, the
trivial-response matcher, the prompt assembler, the response normalizer
and the action-routing handler. The external collaborators (the
relational store, the knowledge fetch and the generation service) are
represented by explicit outcome parameters, and the handler returns,
next to its HTTP response, the ordered trace of collaborator
interactions it performed.
-/

namespace Nexi

/-- Truthiness of an optional JS string field: `undefined` and `""` are falsy. -/
def strTruthy : Option String → Bool
  | none => false
  | some s => s != ""

/-- JS `String.prototype.toLowerCase` (character-wise lowercasing). -/
def jsToLowerCase (s : String) : String := ⟨s.data.map Char.toLower⟩

/-- JS `String.prototype.trim`: strip leading and trailing whitespace. -/
def jsTrim (s : String) : String :=
  ⟨((s.data.dropWhile Char.isWhitespace).reverse.dropWhile Char.isWhitespace).reverse⟩

/-- JS `String.prototype.substring(0, n)`: the first `n` characters. -/
def jsSubstring (n : Nat) (s : String) : String := ⟨s.data.take n⟩

/-- Replace every occurrence of the pattern `p`, left to right, by `r`;
the fuel argument (instantiated with the text's length, an upper bound on
the steps) only makes the recursion structural. -/
def replaceAllAux (p r : List Char) : Nat → List Char → List Char
  | 0, s => s
  | _ + 1, [] => []
  | fuel + 1, c :: cs =>
      if p.isPrefixOf (c :: cs) then
        r ++ replaceAllAux p r fuel ((c :: cs).drop p.length)
      else c :: replaceAllAux p r fuel cs

/-- Outcome of one `fetch` of the knowledge document: a thrown error, or a
response with an HTTP status code and a body text. -/
inductive FetchOutcome where
  | fetchError : FetchOutcome
  | fetchOk : Nat → String → FetchOutcome
deriving DecidableEq

/-- Truthiness of the module-level `cachedKnowledge` slot: `null` and `""`
are falsy. -/
def cacheTruthy : Option String → Bool
  | none => false
  | some s => s != ""

/-- One call of `getKnowledgeBase()` (src/netlify/functions/nexichat.js,
lines 12-25), as a function of the current `cachedKnowledge` slot and of
the outcome of the `fetch`: the string the call returns, paired with the
new slot. On a truthy slot the fetch is skipped and the slot is returned;
a thrown fetch error or a non-200 status returns `""` without assigning
the slot; a 200 response assigns the slot to the body truncated to 20000
characters and returns it. -/
def getKnowledgeBase (cache : Option String) (f : FetchOutcome) :
    String × Option String :=
  if cacheTruthy cache then (cache.getD "", cache)
  else
    match f with
    | .fetchError => ("", cache)
    | .fetchOk status body =>
        if status ≠ 200 then ("", cache)
        else (jsSubstring 20000 body, some (jsSubstring 20000 body))

/-- A sequence of `getKnowledgeBase()` calls threading the module-level
`cachedKnowledge` slot: the list of strings returned, and the final slot. -/
def runKB (cache : Option String) : List FetchOutcome → List String × Option String
  | [] => ([], cache)
  | f :: fs =>
      let r := getKnowledgeBase cache f
      let rest := runKB r.2 fs
      (r.1 :: rest.1, rest.2)

/-- A fetch outcome the source treats as a failure: a thrown error or a
non-200 status. -/
def FetchOutcome.isFail : FetchOutcome → Bool
  | .fetchError => true
  | .fetchOk status _ => status != 200

/-- A value a JS expression can place in a chat row or a response field: a
string, or (through the inherited-property lookup of the trivial-response
map) a function object. -/
inductive JsVal where
  | str : String → JsVal
  | jsFunction : JsVal
deriving DecidableEq

/-- A row of the `chat_history` table as selected (`role, content`). -/
structure HistRow where
  role : String
  content : String
deriving DecidableEq

/-- A row of a batched `chat_history` insert. -/
structure ChatRow where
  role : String
  content : JsVal
deriving DecidableEq

/-- One role-tagged turn of the `contents` array sent to the generation
call; in the source every turn's `parts` holds a single text part. -/
structure Turn where
  role : String
  text : String
deriving DecidableEq

/-- One part of a candidate's content: its `text` field may be absent. -/
structure GenPart where
  text : Option String
deriving DecidableEq

/-- The `content` object of a candidate: its `parts` array may be absent. -/
structure GenContent where
  parts : Option (List GenPart)
deriving DecidableEq

/-- One element of `result.candidates`; its `content` may be absent. -/
structure GenCandidate where
  content : Option GenContent
deriving DecidableEq

/-- The raw result of `ai.models.generateContent`: an optional `candidates`
array, and the value `result.response.text()` would return (`none` when
`result.response` is absent or its `text` is not callable). -/
structure GenResult where
  candidates : Option (List GenCandidate)
  responseText : Option String
deriving DecidableEq

/-- How the data-extraction block (lines 318-333) can throw: reading
`.text` of an absent `parts[0]` (a TypeError), or the explicit
empty-or-blocked error of line 332. -/
inductive ExtractErr where
  | typeError : ExtractErr
  | emptyBlocked : ExtractErr
deriving DecidableEq

/-- Path 2 of the extraction (lines 326-328) followed by the emptiness
check of line 330: call `result.response.text()` when the accessor
exists; a missing accessor leaves `responseText` as `""`, and a falsy
extracted text throws the empty-or-blocked error. -/
def path2 (r : GenResult) : Except ExtractErr String :=
  match r.responseText with
  | some t => if t = "" then .error .emptyBlocked else .ok t
  | none => .error .emptyBlocked

/-- The guard of Path 1 (line 322): `result.candidates &&
result.candidates[0] && result.candidates[0].content` is truthy. -/
def candShape (r : GenResult) : Bool :=
  match r.candidates with
  | some (c :: _) => c.content.isSome
  | _ => false

/-- The robust data-extraction block (lines 318-333): whenever Path 1's
guard holds, `candidates[0].content.parts[0].text` is read (throwing a
TypeError when `parts` or `parts[0]` is absent); only when the guard
fails is Path 2 consulted; a falsy extracted text throws the
empty-or-blocked error. -/
def extractText (r : GenResult) : Except ExtractErr String :=
  match r.candidates with
  | some (c :: _) =>
      match c.content with
      | some content =>
          match content.parts with
          | some (p :: _) =>
              match p.text with
              | some t => if t = "" then .error .emptyBlocked else .ok t
              | none => .error .emptyBlocked
          | _ => .error .typeError
      | none => path2 r
  | _ => path2 r

/-- The message of the error thrown at line 332. -/
def emptyBlockedMsg : String :=
  "The AI model returned an empty or blocked response."

/-- Stand-in for the engine-supplied message of the TypeError thrown when
Path 1 reads `.text` of an absent `parts[0]`. -/
def typeErrorMsg : String := "TypeError"

/-- The `error.message` the outer catch serializes for each extraction
throw. -/
def extractErrMsg : ExtractErr → String
  | .typeError => typeErrorMsg
  | .emptyBlocked => emptyBlockedMsg

/-- `responseText.replace(/---BREAK---/g, '\n\n')` (line 335). -/
def replaceBreaks (s : String) : String :=
  ⟨replaceAllAux "---BREAK---".data "\n\n".data s.data.length s.data⟩

/-- The `userContext` personalization clause (line 256): the interpolated
sentence when `userName` is truthy, else `''`. -/
def userContext (userName : Option String) : String :=
  if strTruthy userName then
    "The user's name is " ++ userName.getD "" ++
      ". Address them by name naturally occasionally."
  else ""

/-- Text of the persona template (line 258) up to the interpolated
personalization clause. -/
def personaHead : String :=
  "You are NEXI, the official AI assistant of XIS EDGE. You embody the brand‚Äôs personality: calm, modern, warm, and premium. You speak with clarity, confidence, and friendliness. You never sound robotic or overly formal. Instead, you communicate in a natural, concise, human-centered way. Your tone is supportive, thoughtful, and slightly futuristic without being playful or childish. You avoid long, unnecessary explanations and focus on accurate, direct answers. Your goal is always to make the user feel understood and guided.
"

/-- Text of the persona template between the personalization clause and
the interpolated knowledge base (lines 260-289). -/
def personaMid : String :=
  "

Your core purpose is to make the XIS EDGE experience faster, smarter, and easier. You answer questions about hosting plans, explain features, guide onboarding steps, troubleshoot common issues, assist with billing inquiries, and direct users to the right parts of the website. You help users understand domain setup, email configuration, performance optimization, and security basics. You also help them explore XIS EDGE services such as web design, hosting management, and digital support. Your responses always include clear, actionable steps.

You are not just a support bot ‚Äî you are a brand guide. You represent the values of XIS EDGE: simplicity, clarity, modern tech, and human-centered design. You reduce stress, confusion, and overwhelm. You simplify explanations for beginners and provide technical clarity for advanced users. You speak with intention and avoid generic chatbot filler such as ‚ÄúAs an AI language model‚Äù or ‚ÄúIn conclusion.‚Äù

You never guess. If you don‚Äôt know something, you politely acknowledge it and offer what you can, or direct the user to human support. You remember context within a conversation and use it to improve the flow. You stay consistent, reliable, and calm.

Your style guidelines:
You write in short, clean sentences.
You avoid stiff corporate language.
You use simple vocabulary, modern phrasing, and light empathy.
You never overpromise or overwhelm.
You give the right amount of detail ‚Äî not too much, not too little.
You maintain a premium, sleek, friendly brand voice.
You respond with confidence but without ego.
You are precise, warm, and helpful.

Your internal mindset:
‚ÄúI make things easy.‚Äù
‚ÄúI remove stress.‚Äù
‚ÄúI help users feel smart, not confused.‚Äù
‚ÄúI guide, not lecture.‚Äù
‚ÄúI respond with clarity and care.‚Äù
‚ÄúI represent a premium digital brand, so everything must feel clean and intentional.‚Äù

--- CORE KNOWLEDGE ---
- Contact: hello@xisedge.tech | +234 708 005 4074.

--- KNOWLEDGE BASE ---
"

/-- Tail of the persona template after the interpolated knowledge base:
the fixed rules block (lines 291-294). -/
def personaRules : String :=
  "

--- RULES ---
1. NO external knowledge. Use only provided facts.
2. Never say \"I am a bot\". Act like a human expert.
"

/-- The `brandPersona` template literal (lines 258-294), as a function of
the `userName` field and of the fetched knowledge text. -/
def mkPersona (userName : Option String) (knowledge : String) : String :=
  personaHead ++ userContext userName ++ personaMid ++ knowledge ++ personaRules

/-- The synthetic model acknowledgment turn's text (line 304). -/
def ackText : String := "Understood. I am Blu. I will follow all rules."

/-- The reply mapped from the keys `thanks` and `thank you` (lines 224-225). -/
def thanksReply : String :=
  "You're very welcome! Let me know if you need anything else."

/-- The reply mapped from the keys `bye` and `goodbye` (lines 226-227). -/
def byeReply : String := "Goodbye! Have a great day."

/-- What the property lookup `trivialResponses[lower]` yields in JS: one of
the object literal's own entries, a property inherited from
`Object.prototype` (a truthy function or object), or `undefined`. -/
inductive TrivialHit where
  | ownStr : String → TrivialHit
  | inherited : TrivialHit
  | absent : TrivialHit
deriving DecidableEq

/-- The property names every plain object literal inherits from
`Object.prototype`; each holds a truthy value (a function, or, for
`__proto__`, the prototype object itself). -/
def objectProtoProps : List String :=
  ["constructor", "hasOwnProperty", "isPrototypeOf", "propertyIsEnumerable",
   "toLocaleString", "toString", "valueOf", "__defineGetter__",
   "__defineSetter__", "__lookupGetter__", "__lookupSetter__", "__proto__"]

/-- The lookup `trivialResponses[lower]` on the object literal of lines
223-228: its own keys first, then the properties inherited from
`Object.prototype`, else `undefined`. -/
def trivialLookup (key : String) : TrivialHit :=
  if key = "thanks" ∨ key = "thank you" then .ownStr thanksReply
  else if key = "bye" ∨ key = "goodbye" then .ownStr byeReply
  else if key ∈ objectProtoProps then .inherited
  else .absent

/-- The JSON-parsed POST body, with each recognized field optional as in
JS (`none` = absent); `userDetailsPresent` records whether `userDetails`
is an object (its individual fields are never branched on by the
handler), and `loadHistory` records the field's truthiness. -/
structure ReqBody where
  message : Option String := none
  sessionId : Option String := none
  action : Option String := none
  userDetailsPresent : Bool := false
  userName : Option String := none
  loadHistory : Bool := false
  adminSecret : Option String := none
deriving DecidableEq

/-- Outcomes of the external collaborators for one invocation: the
configured `ADMIN_PASSWORD` (possibly unset), whether each structured
insert reports an error (for leads, orders and consultations the source
only logs such an error, lines 73, 97-100 and 122, so the handler's
result does not depend on those three flags; for tickets it returns 500,
lines 138-141), the session's `chat_history` rows in ascending
`created_at` order, whether the history select and the dashboard selects
report errors, the knowledge-cache slot with the pending fetch outcome,
and the raw generation result. -/
structure Env where
  adminPassword : Option String := none
  leadInsertError : Bool := false
  orderInsertError : Bool := false
  consultInsertError : Bool := false
  ticketInsertError : Bool := false
  histRows : List HistRow := []
  histReadError : Bool := false
  dashReadError : Bool := false
  kbCache : Option String := none
  kbFetch : FetchOutcome := .fetchError
  genResult : GenResult := ⟨none, none⟩
deriving DecidableEq

/-- One external-collaborator interaction, in program order. -/
inductive Effect where
  | insertLead : String → Effect
  | insertOrder : String → Effect
  | insertConsultation : String → Effect
  | insertTicket : String → Effect
  | selectHistoryAll : String → Effect
  | selectHistoryRecent : String → Nat → Effect
  | selectLeads : Effect
  | selectOrders : Effect
  | selectTickets : Effect
  | selectConsultations : Effect
  | fetchKnowledge : Effect
  | generate : List Turn → Effect
  | insertChat : String → List ChatRow → Effect
deriving DecidableEq

/-- A response body: the JSON value of each shape the handler returns.
`reply .jsFunction` records the degenerate `{reply: <function>}` object
of the inherited-property path (whose `JSON.stringify` drops the key). -/
inductive RespBody where
  | reply : JsVal → RespBody
  | history : List HistRow → RespBody
  | successTrue : RespBody
  | dashboardData : RespBody
  | errorMsg : String → RespBody
deriving DecidableEq

/-- An HTTP response: status code and JSON body (the CORS headers carry no
claim-relevant information and are omitted). -/
structure Resp where
  statusCode : Nat
  body : RespBody
deriving DecidableEq

/-- Stand-in for the store-supplied message of the error thrown by the
`loadHistory` branch (line 156) and serialized by the outer catch. -/
def historyReadErrMsg : String := "history read error"

/-- The Gemini-format turns built from the retrieved history rows
(lines 247-250). -/
def toPastMessages (rows : List HistRow) : List Turn :=
  rows.map fun r => ⟨if r.role = "user" then "user" else "model", r.content⟩

/-- The ordered `contents` array sent to the generation call
(lines 297-311): the synthetic persona turn, the synthetic model
acknowledgment, the converted history, then the new user message. -/
def buildContents (userName : Option String) (knowledge : String)
    (past : List Turn) (message : String) : List Turn :=
  ⟨"user", mkPersona userName knowledge⟩ :: ⟨"model", ackText⟩ ::
    (past ++ [⟨"user", message⟩])

/-- The generation path of the chat turn (sections 3-6 of the source,
lines 240-347): the bounded ascending history read (whose error is
ignored: line 240 destructures only `data`, which is then `null`), the
knowledge fetch, the generation call, extraction, `---BREAK---`
replacement, and the batched pair insert. -/
def generationPath (env : Env) (sid msg : String) (userName : Option String) :
    Resp × List Effect :=
  let histData := if env.histReadError then [] else env.histRows.take 12
  let past := toPastMessages histData
  let knowledge := (getKnowledgeBase env.kbCache env.kbFetch).1
  let kbEff : List Effect :=
    if cacheTruthy env.kbCache then [] else [.fetchKnowledge]
  let contents := buildContents userName knowledge past msg
  let effs := .selectHistoryRecent sid 12 :: kbEff ++ [.generate contents]
  match extractText env.genResult with
  | .error e => (⟨500, .errorMsg (extractErrMsg e)⟩, effs)
  | .ok t =>
      let rt := replaceBreaks t
      (⟨200, .reply (.str rt)⟩,
        effs ++ [.insertChat sid [⟨"user", .str msg⟩, ⟨"assistant", .str rt⟩]])

/-- The chat-turn action (section C of the source, lines 221-347, after
the missing-message check): the trivial-response lookup on the trimmed
lowercased message, short-circuiting with a batched pair insert on a
truthy lookup, else the generation path. -/
def chatTurn (env : Env) (sid msg : String) (userName : Option String) :
    Resp × List Effect :=
  let lower := jsTrim (jsToLowerCase msg)
  match trivialLookup lower with
  | .ownStr reply =>
      (⟨200, .reply (.str reply)⟩,
        [.insertChat sid [⟨"user", .str msg⟩, ⟨"assistant", .str reply⟩]])
  | .inherited =>
      (⟨200, .reply .jsFunction⟩,
        [.insertChat sid [⟨"user", .str msg⟩, ⟨"assistant", .jsFunction⟩]])
  | .absent => generationPath env sid msg userName

/-- The handler of src/netlify/functions/nexichat.js (lines 34-357) from
the point where the POST body has been JSON-parsed (line 56): the
response returned, and the ordered trace of collaborator interactions.
OPTIONS requests, non-POST methods and malformed JSON are handled before
this point and interact with no collaborator. The `loadHistory` branch
throws on its read error (line 156), surfaced by the outer catch as a
500. -/
def handler (env : Env) (b : ReqBody) : Resp × List Effect :=
  if !(strTruthy b.sessionId) then
    (⟨400, .errorMsg "Missing Session ID"⟩, [])
  else
    let sid := b.sessionId.getD ""
    if b.action = some "saveLead" then
      if !b.userDetailsPresent then (⟨500, .errorMsg typeErrorMsg⟩, [])
      else (⟨200, .successTrue⟩, [.insertLead sid])
    else if b.action = some "saveOrder" then
      if !b.userDetailsPresent then (⟨500, .errorMsg typeErrorMsg⟩, [])
      else (⟨200, .successTrue⟩, [.insertOrder sid])
    else if b.action = some "saveConsultation" then
      if !b.userDetailsPresent then (⟨500, .errorMsg typeErrorMsg⟩, [])
      else (⟨200, .successTrue⟩, [.insertConsultation sid])
    else if b.action = some "saveTicket" then
      if !b.userDetailsPresent then (⟨500, .errorMsg typeErrorMsg⟩, [])
      else if env.ticketInsertError then
        (⟨500, .errorMsg "Failed to save ticket"⟩, [.insertTicket sid])
      else (⟨200, .successTrue⟩, [.insertTicket sid])
    else if b.loadHistory ∨ b.action = some "loadHistory" then
      if env.histReadError then
        (⟨500, .errorMsg historyReadErrMsg⟩, [.selectHistoryAll sid])
      else (⟨200, .history env.histRows⟩, [.selectHistoryAll sid])
    else if b.action = some "getDashboardData" then
      if b.adminSecret ≠ env.adminPassword then
        (⟨401, .errorMsg "Invalid Password"⟩, [])
      else
        let effs : List Effect :=
          [.selectLeads, .selectOrders, .selectTickets, .selectConsultations]
        if env.dashReadError then (⟨500, .errorMsg "Database Error"⟩, effs)
        else (⟨200, .dashboardData⟩, effs)
    else if !(strTruthy b.message) then
      (⟨400, .errorMsg "Missing Message"⟩, [])
    else chatTurn env sid (b.message.getD "") b.userName

/-- The chat-history insert batches of an effect trace, with their session
identifiers, in order. -/
def chatInserts (effs : List Effect) : List (String × List ChatRow) :=
  effs.filterMap fun e =>
    match e with
    | .insertChat sid rows => some (sid, rows)
    | _ => none

/-- The `contents` arrays of the generation calls of an effect trace, in
order. -/
def generateCalls (effs : List Effect) : List (List Turn) :=
  effs.filterMap fun e =>
    match e with
    | .generate c => some c
    | _ => none

/-- A session transcript of 13 stored turns t1..t13 in ascending
`created_at` order. -/
def sessionRows13 : List HistRow :=
  [⟨"user", "t1"⟩, ⟨"assistant", "t2"⟩, ⟨"user", "t3"⟩, ⟨"assistant", "t4"⟩,
   ⟨"user", "t5"⟩, ⟨"assistant", "t6"⟩, ⟨"user", "t7"⟩, ⟨"assistant", "t8"⟩,
   ⟨"user", "t9"⟩, ⟨"assistant", "t10"⟩, ⟨"user", "t11"⟩, ⟨"assistant", "t12"⟩,
   ⟨"user", "t13"⟩]

/-- A generation result whose candidates shape is present with an empty
first text, while `result.response.text()` would return the non-empty
string `hi`. -/
def emptyTextResult : GenResult :=
  { candidates := some [⟨some ⟨some [⟨some ""⟩]⟩⟩], responseText := some "hi" }

/-- A generation result whose candidates shape carries a non-empty text
containing one paragraph-break marker. -/
def markedTextResult : GenResult :=
  { candidates := some [⟨some ⟨some [⟨some "Hello---BREAK---there"⟩]⟩⟩],
    responseText := none }

/-- On a request carrying a non-empty session id, a non-empty message, a
falsy `loadHistory` and an action matching none of the six recognized
action strings, the handler dispatches to the chat-turn section. -/
theorem handler_chat_dispatch (env : Env) (b : ReqBody) (sid msgS : String)
    (hsid : b.sessionId = some sid) (hs : sid ≠ "")
    (hmsg : b.message = some msgS) (hm : msgS ≠ "")
    (hlh : b.loadHistory = false)
    (h1 : b.action ≠ some "saveLead") (h2 : b.action ≠ some "saveOrder")
    (h3 : b.action ≠ some "saveConsultation") (h4 : b.action ≠ some "saveTicket")
    (h5 : b.action ≠ some "loadHistory") (h6 : b.action ≠ some "getDashboardData") :
    handler env b = chatTurn env sid msgS b.userName := by
  simp [handler, strTruthy, hsid, hmsg, hlh, h1, h2, h3, h4, h5, h6, hs, hm]

/-- C8: a dispatched `getDashboardData` request (session id present,
`loadHistory` falsy) whose `adminSecret` differs from the configured
`ADMIN_PASSWORD` gets a 401 `Invalid Password` response and an empty
effect trace: no store read or write is performed. -/
theorem getDashboardData_bad_secret_untouched_store (env : Env) (sid : String)
    (hs : sid ≠ "") (msg un secret : Option String) (ud : Bool)
    (hsec : secret ≠ env.adminPassword) :
    handler env ⟨msg, some sid, some "getDashboardData", ud, un, false, secret⟩ =
      (⟨401, .errorMsg "Invalid Password"⟩, []) := by
  simp [handler, strTruthy, hs, hsec]

/-- Witness for C8 at a concrete request: wrong secret against an unset
admin password. -/
theorem getDashboardData_bad_secret_untouched_store_witness :
    handler {} ⟨none, some "s1", some "getDashboardData", false, none, false, some "guess"⟩ =
      (⟨401, .errorMsg "Invalid Password"⟩, []) :=
  getDashboardData_bad_secret_untouched_store {} "s1" (by decide) none none
    (some "guess") false (by decide)

/-- C9: a parsed POST body whose session id is falsy gets a 400
`Missing Session ID` with an empty effect trace, whatever the action; and
a body with a session id, a falsy `loadHistory`, an action matching none
of the six recognized strings and a falsy message gets a 400
`Missing Message` with an empty effect trace. -/
theorem handler_missing_required_fields (env : Env) :
    (∀ b : ReqBody, strTruthy b.sessionId = false →
      handler env b = (⟨400, .errorMsg "Missing Session ID"⟩, [])) ∧
    (∀ (sid : String) (msg act un secret : Option String) (ud : Bool),
      sid ≠ "" →
      act ≠ some "saveLead" → act ≠ some "saveOrder" →
      act ≠ some "saveConsultation" → act ≠ some "saveTicket" →
      act ≠ some "loadHistory" → act ≠ some "getDashboardData" →
      strTruthy msg = false →
      handler env ⟨msg, some sid, act, ud, un, false, secret⟩ =
        (⟨400, .errorMsg "Missing Message"⟩, [])) := by
  constructor
  · intro b hb
    simp [handler, hb]
  · intro sid msg act un secret ud hs ha1 ha2 ha3 ha4 ha5 ha6 hm
    have hstr : strTruthy (some sid) = true := by simp [strTruthy, hs]
    simp [handler, hstr, ha1, ha2, ha3, ha4, ha5, ha6, hm]

/-- Witness for C9 at concrete requests: a `getDashboardData` body without
a session id, and a chat body without a message. -/
theorem handler_missing_required_fields_witness :
    handler {} { action := some "getDashboardData" } =
      (⟨400, .errorMsg "Missing Session ID"⟩, []) ∧
    handler {} ⟨none, some "s1", none, false, none, false, none⟩ =
      (⟨400, .errorMsg "Missing Message"⟩, []) := by
  have h := handler_missing_required_fields {}
  exact ⟨h.1 { action := some "getDashboardData" } (by decide),
    h.2 "s1" none none none none false (by decide) (by decide) (by decide)
      (by decide) (by decide) (by decide) (by decide) (by decide)⟩

/-- C10: a request with a session id, a truthy `loadHistory` and an action
that is none of the four save actions takes the history-load path: when
the history read succeeds it returns 200 with the session transcript, and
its only store interaction is the full ascending history select — in
particular with `action = getDashboardData` the admin-secret check and the
dashboard reads are never reached, whatever `adminSecret` holds. -/
theorem loadHistory_flag_overrides_dashboard (env : Env) (sid : String)
    (hs : sid ≠ "") (msg un secret : Option String) (ud : Bool)
    (act : Option String)
    (ha1 : act ≠ some "saveLead") (ha2 : act ≠ some "saveOrder")
    (ha3 : act ≠ some "saveConsultation") (ha4 : act ≠ some "saveTicket")
    (hread : env.histReadError = false) :
    handler env ⟨msg, some sid, act, ud, un, true, secret⟩ =
      (⟨200, .history env.histRows⟩, [.selectHistoryAll sid]) := by
  simp [handler, strTruthy, hs, ha1, ha2, ha3, ha4, hread]

/-- Witness for C10 at a concrete request: `loadHistory` truthy together
with `action = getDashboardData` and a wrong secret returns the history,
not 401. -/
theorem loadHistory_flag_overrides_dashboard_witness :
    handler { histRows := [⟨"user", "hi"⟩, ⟨"assistant", "hello"⟩] }
        ⟨none, some "s1", some "getDashboardData", false, none, true, some "wrong"⟩ =
      (⟨200, .history [⟨"user", "hi"⟩, ⟨"assistant", "hello"⟩]⟩,
        [.selectHistoryAll "s1"]) :=
  loadHistory_flag_overrides_dashboard
    { histRows := [⟨"user", "hi"⟩, ⟨"assistant", "hello"⟩] } "s1" (by decide)
    none none (some "wrong") false (some "getDashboardData") (by decide)
    (by decide) (by decide) (by decide) (by decide)

/-- C5 counterexample: with the store reporting an insert error, a
`saveLead` (likewise `saveOrder`, `saveConsultation`) request is answered
200 `{success: true}` — the handler only logs the error (lines 73, 97-100,
122) and acknowledges success, contradicting the claim that every
persistence action surfaces a server error. -/
theorem save_actions_acknowledge_despite_insert_error :
    handler { leadInsertError := true }
        ⟨none, some "s1", some "saveLead", true, none, false, none⟩ =
      (⟨200, .successTrue⟩, [.insertLead "s1"]) ∧
    handler { orderInsertError := true }
        ⟨none, some "s1", some "saveOrder", true, none, false, none⟩ =
      (⟨200, .successTrue⟩, [.insertOrder "s1"]) ∧
    handler { consultInsertError := true }
        ⟨none, some "s1", some "saveConsultation", true, none, false, none⟩ =
      (⟨200, .successTrue⟩, [.insertConsultation "s1"]) := by
  decide

/-- C5 amended: only `saveTicket` surfaces a store insert error as a 500;
`saveLead`, `saveOrder` and `saveConsultation` log it and still
acknowledge 200 `{success: true}`, whatever the insert outcome. -/
theorem insert_error_surfaced_only_for_tickets (env : Env) (sid : String)
    (hs : sid ≠ "") (msg un secret : Option String) (lh : Bool) :
    (env.ticketInsertError = true →
      handler env ⟨msg, some sid, some "saveTicket", true, un, lh, secret⟩ =
        (⟨500, .errorMsg "Failed to save ticket"⟩, [.insertTicket sid])) ∧
    handler env ⟨msg, some sid, some "saveLead", true, un, lh, secret⟩ =
      (⟨200, .successTrue⟩, [.insertLead sid]) ∧
    handler env ⟨msg, some sid, some "saveOrder", true, un, lh, secret⟩ =
      (⟨200, .successTrue⟩, [.insertOrder sid]) ∧
    handler env ⟨msg, some sid, some "saveConsultation", true, un, lh, secret⟩ =
      (⟨200, .successTrue⟩, [.insertConsultation sid]) := by
  have hstr : strTruthy (some sid) = true := by simp [strTruthy, hs]
  refine ⟨fun ht => ?_, ?_, ?_, ?_⟩ <;> simp [handler, hstr, *]

/-- Witness for C5's amended theorem at a concrete erroring store. -/
theorem insert_error_surfaced_only_for_tickets_witness :
    handler { ticketInsertError := true }
        ⟨none, some "s1", some "saveTicket", true, none, false, none⟩ =
      (⟨500, .errorMsg "Failed to save ticket"⟩, [.insertTicket "s1"]) ∧
    handler { ticketInsertError := true }
        ⟨none, some "s1", some "saveLead", true, none, false, none⟩ =
      (⟨200, .successTrue⟩, [.insertLead "s1"]) := by
  have h := insert_error_surfaced_only_for_tickets { ticketInsertError := true }
    "s1" (by decide) none none none false
  exact ⟨h.1 rfl, h.2.1⟩

set_option maxRecDepth 4096 in
/-- C1: the message `constructor` is none of the four mapped pleasantries,
yet `trivialResponses['constructor']` finds the inherited
`Object.prototype.constructor` property (truthy), so the handler
short-circuits with the function object as the reply and persists it,
never taking the generation path — the effect trace holds the pair insert
and no generation call. -/
theorem inherited_property_message_bypasses_generation :
    handler {} { sessionId := some "s1", message := some "constructor" } =
      (⟨200, .reply .jsFunction⟩,
        [.insertChat "s1"
          [⟨"user", .str "constructor"⟩, ⟨"assistant", .jsFunction⟩]]) ∧
    trivialLookup "constructor" = .inherited ∧
    jsTrim (jsToLowerCase "constructor") = "constructor" ∧
    ¬("constructor" = "thanks" ∨ "constructor" = "thank you" ∨
      "constructor" = "bye" ∨ "constructor" = "goodbye") := by
  decide

/-- C4: for a session holding 13 turns, the chat path's history query
(ascending `created_at`, limit 12) hands the generation call the oldest
12 turns t1..t12 — all but the newest — not the most recent 12 (t2..t13):
`take 12` equals `dropLast` and differs from `drop 1`, the most recent 12
of the 13 rows. -/
theorem history_window_keeps_oldest_turns :
    (handler { histRows := sessionRows13 }
        { sessionId := some "s1", message := some "hello" }).2 =
      [.selectHistoryRecent "s1" 12, .fetchKnowledge,
        .generate (buildContents none ""
          (toPastMessages (sessionRows13.take 12)) "hello")] ∧
    sessionRows13.take 12 = sessionRows13.dropLast ∧
    sessionRows13.take 12 ≠ sessionRows13.drop 1 ∧
    (sessionRows13.drop 1).length = 12 := by
  refine ⟨?_, by decide, by decide, by decide⟩
  rw [handler_chat_dispatch _ _ "s1" "hello" rfl (by decide) rfl (by decide) rfl
      (by decide) (by decide) (by decide) (by decide) (by decide) (by decide)]
  have htriv : trivialLookup (jsTrim (jsToLowerCase "hello")) = .absent := by decide
  simp [chatTurn, htriv, generationPath, getKnowledgeBase, cacheTruthy,
    extractText, path2]

/-- A failed fetch (thrown error or non-200 status) against a falsy cache
slot returns the empty string and leaves the slot unchanged. -/
theorem getKnowledgeBase_fail (c : Option String) (f : FetchOutcome)
    (hc : cacheTruthy c = false) (hf : f.isFail = true) :
    getKnowledgeBase c f = ("", c) := by
  cases f with
  | fetchError => simp [getKnowledgeBase, hc]
  | fetchOk status body =>
      simp only [FetchOutcome.isFail, bne_iff_ne, ne_eq] at hf
      simp [getKnowledgeBase, hc, hf]

/-- A truthy cache slot is returned as is, whatever the pending fetch. -/
theorem getKnowledgeBase_hit (c : Option String) (f : FetchOutcome)
    (hc : cacheTruthy c = true) :
    getKnowledgeBase c f = (c.getD "", c) := by
  simp [getKnowledgeBase, hc]

/-- A run of calls whose fetches all fail returns the empty string each
time and never assigns the slot. -/
theorem runKB_all_fail (fs : List FetchOutcome)
    (hf : ∀ f ∈ fs, f.isFail = true) :
    runKB none fs = (fs.map fun _ => "", none) := by
  induction fs with
  | nil => rfl
  | cons f fs ih =>
      have h1 : getKnowledgeBase none f = ("", none) :=
        getKnowledgeBase_fail none f rfl (hf f (by simp))
      simp [runKB, h1, ih fun g hg => hf g (by simp [hg])]

/-- A run of calls from a truthy cache slot returns the slot's text each
time and leaves it unchanged. -/
theorem runKB_cached (c : Option String) (hc : cacheTruthy c = true)
    (gs : List FetchOutcome) :
    runKB c gs = (gs.map fun _ => c.getD "", c) := by
  induction gs with
  | nil => rfl
  | cons g gs ih => simp [runKB, getKnowledgeBase_hit c g hc, ih]

/-- A run of calls splits over list concatenation, threading the slot. -/
theorem runKB_append (c : Option String) (xs ys : List FetchOutcome) :
    runKB c (xs ++ ys) =
      ((runKB c xs).1 ++ (runKB (runKB c xs).2 ys).1,
        (runKB (runKB c xs).2 ys).2) := by
  induction xs generalizing c with
  | nil => simp [runKB]
  | cons x xs ih => simp [runKB, ih]

/-- C2 counterexample: a fetch can succeed (status 200) with an empty
body; the call assigns the slot to `""`, but the falsy slot does not
stick, so the next call re-fetches and can return a different text —
the first successful fetch's result is not returned unchanged by all
subsequent calls. -/
theorem empty_success_snapshot_not_sticky :
    (runKB none [.fetchOk 200 "", .fetchOk 200 "abc"]).1 = ["", "abc"] ∧
    (runKB none [.fetchOk 200 "", .fetchOk 200 "abc"]).2 = some "abc" ∧
    ("abc" : String) ≠ "" := by
  decide

/-- C2 amended: a failed fetch (error or non-200) against an unset cache
returns `""` and never sets the slot, so every subsequent call
re-attempts; and once a fetch succeeds with a body whose 20000-character
truncation is non-empty, any run of failures followed by that success
yields the truncated snapshot on the successful call and on every call
after it, whatever the later fetch outcomes. A 200 response with an empty
body also returns `""` and, although it assigns the slot, the falsy slot
does not stick. -/
theorem knowledge_cache_failure_then_success_policy
    (fs gs : List FetchOutcome) (body : String)
    (hf : ∀ f ∈ fs, f.isFail = true)
    (hb : jsSubstring 20000 body ≠ "") :
    (∀ (c : Option String) (f : FetchOutcome),
      cacheTruthy c = false → f.isFail = true →
      getKnowledgeBase c f = ("", c)) ∧
    (runKB none (fs ++ FetchOutcome.fetchOk 200 body :: gs)).1 =
      (fs.map fun _ => "") ++ jsSubstring 20000 body ::
        (gs.map fun _ => jsSubstring 20000 body) := by
  refine ⟨fun c f hc hf2 => getKnowledgeBase_fail c f hc hf2, ?_⟩
  rw [runKB_append, runKB_all_fail fs hf]
  have hsucc : getKnowledgeBase none (.fetchOk 200 body) =
      (jsSubstring 20000 body, some (jsSubstring 20000 body)) := by
    simp [getKnowledgeBase, cacheTruthy]
  have hct : cacheTruthy (some (jsSubstring 20000 body)) = true := by
    simp [cacheTruthy, bne_iff_ne, hb]
  simp [runKB, hsucc, runKB_cached _ hct]

/-- Witness for C2's amended theorem: one thrown fetch and one 404
return `""` without caching, then a success caches `KB` which survives a
later failure and a later different success. -/
theorem knowledge_cache_failure_then_success_policy_witness :
    (runKB none ([.fetchError, .fetchOk 404 "x"] ++
        FetchOutcome.fetchOk 200 "KB" :: [.fetchError, .fetchOk 200 "other"])).1 =
      ["", "", "KB", "KB", "KB"] := by
  have h := knowledge_cache_failure_then_success_policy
    [.fetchError, .fetchOk 404 "x"] [.fetchError, .fetchOk 200 "other"] "KB"
    (by decide) (by decide)
  rw [h.2]
  decide

/-- C3 counterexample: on a result whose candidates shape is present but
whose first part's text is empty, the `else if` skips the
`response.text()` accessor although it would yield the non-empty `hi`, so
the request fails 500 with the empty-or-blocked error and no chat rows
are inserted — the claim's `if neither yields non-empty text` failure
condition does not hold, yet the code fails. -/
theorem empty_candidate_text_fails_despite_accessor :
    extractText emptyTextResult = .error .emptyBlocked ∧
    path2 emptyTextResult = .ok "hi" ∧
    (handler { genResult := emptyTextResult }
        { sessionId := some "s1", message := some "ping" }).1 =
      ⟨500, .errorMsg emptyBlockedMsg⟩ ∧
    chatInserts (handler { genResult := emptyTextResult }
        { sessionId := some "s1", message := some "ping" }).2 = [] := by
  have hd := handler_chat_dispatch { genResult := emptyTextResult }
    { sessionId := some "s1", message := some "ping" } "s1" "ping" rfl (by decide)
    rfl (by decide) rfl (by decide) (by decide) (by decide) (by decide)
    (by decide) (by decide)
  have htriv : trivialLookup (jsTrim (jsToLowerCase "ping")) = .absent := by decide
  have hx : extractText emptyTextResult = .error .emptyBlocked := by rfl
  refine ⟨hx, by rfl, ?_, ?_⟩ <;>
    simp [hd, chatTurn, htriv, generationPath, hx, chatInserts, extractErrMsg,
      cacheTruthy]

/-- C3 amended: Path 2 (the `response.text()` accessor) is consulted only
when Path 1's candidates-shape guard fails; whichever path runs, an
extraction error is surfaced as a 500 with no chat rows persisted, and an
extracted text is returned 200 with every `---BREAK---` marker replaced
by a blank line, persisted the same way as the user-assistant pair. -/
theorem response_normalizer_policy (env : Env) (b : ReqBody) (sid msgS : String)
    (hsid : b.sessionId = some sid) (hs : sid ≠ "")
    (hmsg : b.message = some msgS) (hm : msgS ≠ "")
    (hlh : b.loadHistory = false)
    (h1 : b.action ≠ some "saveLead") (h2 : b.action ≠ some "saveOrder")
    (h3 : b.action ≠ some "saveConsultation") (h4 : b.action ≠ some "saveTicket")
    (h5 : b.action ≠ some "loadHistory") (h6 : b.action ≠ some "getDashboardData")
    (htriv : trivialLookup (jsTrim (jsToLowerCase msgS)) = .absent) :
    (∀ e, extractText env.genResult = .error e →
      (handler env b).1 = ⟨500, .errorMsg (extractErrMsg e)⟩ ∧
      chatInserts (handler env b).2 = []) ∧
    (∀ t, extractText env.genResult = .ok t →
      (handler env b).1 = ⟨200, .reply (.str (replaceBreaks t))⟩ ∧
      chatInserts (handler env b).2 =
        [(sid, [⟨"user", .str msgS⟩, ⟨"assistant", .str (replaceBreaks t)⟩])]) ∧
    (∀ r r2 : GenResult, candShape r = true → r.candidates = r2.candidates →
      extractText r = extractText r2) := by
  rw [handler_chat_dispatch env b sid msgS hsid hs hmsg hm hlh h1 h2 h3 h4 h5 h6]
  refine ⟨?_, ?_, ?_⟩
  · intro e he
    by_cases hk : cacheTruthy env.kbCache <;>
      simp [chatTurn, htriv, generationPath, he, chatInserts, hk]
  · intro t ht
    by_cases hk : cacheTruthy env.kbCache <;>
      simp [chatTurn, htriv, generationPath, ht, chatInserts, hk]
  · intro r r2 hshape hcand
    rcases hr : r.candidates with _ | l
    · simp [candShape, hr] at hshape
    · rcases l with _ | ⟨c, cs⟩
      · simp [candShape, hr] at hshape
      · rcases hc : c.content with _ | content
        · simp [candShape, hr, hc] at hshape
        · have h2 : r2.candidates = some (c :: cs) := by rw [← hcand, hr]
          simp [extractText, hr, h2, hc]

/-- Witness for C3's amended theorem: a candidates-shaped result whose
text carries one marker is returned 200 with the marker replaced by a
blank line. -/
theorem response_normalizer_policy_witness :
    (handler { genResult := markedTextResult }
        { sessionId := some "s1", message := some "ping" }).1 =
      ⟨200, .reply (.str "Hello\n\nthere")⟩ := by
  have h := response_normalizer_policy { genResult := markedTextResult }
    { sessionId := some "s1", message := some "ping" } "s1" "ping" rfl (by decide)
    rfl (by decide) rfl (by decide) (by decide) (by decide) (by decide)
    (by decide) (by decide) (by decide)
  have h2 := h.2.1 "Hello---BREAK---there" (by rfl)
  rw [h2.1]
  decide

/-- C6: on the generation path the single generation call receives
exactly the synthetic leading user turn carrying the persona (with the
knowledge text interpolated), the synthetic model acknowledgment, the
retrieved history in chronological order, then the new user message; and
for every knowledge text — the empty one of a failed fetch included — the
persona ends in the fixed rules block. -/
theorem prompt_assembly_order (env : Env) (b : ReqBody) (sid msgS : String)
    (hsid : b.sessionId = some sid) (hs : sid ≠ "")
    (hmsg : b.message = some msgS) (hm : msgS ≠ "")
    (hlh : b.loadHistory = false)
    (h1 : b.action ≠ some "saveLead") (h2 : b.action ≠ some "saveOrder")
    (h3 : b.action ≠ some "saveConsultation") (h4 : b.action ≠ some "saveTicket")
    (h5 : b.action ≠ some "loadHistory") (h6 : b.action ≠ some "getDashboardData")
    (htriv : trivialLookup (jsTrim (jsToLowerCase msgS)) = .absent)
    (hread : env.histReadError = false) :
    generateCalls (handler env b).2 =
      [buildContents b.userName (getKnowledgeBase env.kbCache env.kbFetch).1
        (toPastMessages (env.histRows.take 12)) msgS] ∧
    (∀ (u : Option String) (k : String) (past : List Turn) (m : String),
      buildContents u k past m =
        ⟨"user", mkPersona u k⟩ :: ⟨"model", ackText⟩ :: (past ++ [⟨"user", m⟩])) ∧
    (∀ (u : Option String) (k : String), ∃ p, mkPersona u k = p ++ personaRules) := by
  rw [handler_chat_dispatch env b sid msgS hsid hs hmsg hm hlh h1 h2 h3 h4 h5 h6]
  refine ⟨?_, fun u k past m => rfl, fun u k =>
    ⟨personaHead ++ userContext u ++ personaMid ++ k, rfl⟩⟩
  cases hx : extractText env.genResult <;> by_cases hk : cacheTruthy env.kbCache <;>
    simp [chatTurn, htriv, generationPath, hx, hk, generateCalls, hread]

/-- Witness for C6 at a concrete request with an empty history and a
failed knowledge fetch. -/
theorem prompt_assembly_order_witness :
    generateCalls (handler {} { sessionId := some "s1", message := some "hi" }).2 =
      [buildContents none "" [] "hi"] := by
  have h := prompt_assembly_order {} { sessionId := some "s1", message := some "hi" }
    "s1" "hi" rfl (by decide) rfl (by decide) rfl (by decide) (by decide)
    (by decide) (by decide) (by decide) (by decide) (by decide) rfl
  rw [h.1]
  rfl

/-- Shape of the chat-turn section's outcome: either a reply with exactly
one batched user-assistant pair insert for the session, or an error with
no insert. -/
theorem chatTurn_shape (env : Env) (sid msgS : String) (un : Option String) :
    (∃ a v, chatInserts (chatTurn env sid msgS un).2 =
        [(sid, [⟨"user", .str msgS⟩, ⟨"assistant", a⟩])] ∧
      (chatTurn env sid msgS un).1.body = .reply v) ∨
    (chatInserts (chatTurn env sid msgS un).2 = [] ∧
      ∃ m, (chatTurn env sid msgS un).1.body = .errorMsg m) := by
  cases htriv : trivialLookup (jsTrim (jsToLowerCase msgS)) with
  | ownStr reply =>
      left
      exact ⟨.str reply, .str reply, by simp [chatTurn, htriv, chatInserts], by simp [chatTurn, htriv]⟩
  | inherited =>
      left
      exact ⟨.jsFunction, .jsFunction, by simp [chatTurn, htriv, chatInserts], by simp [chatTurn, htriv]⟩
  | absent =>
      cases hx : extractText env.genResult with
      | error e =>
          right
          constructor
          · by_cases hk : cacheTruthy env.kbCache <;>
              simp [chatTurn, htriv, generationPath, hx, hk, chatInserts]
          · exact ⟨extractErrMsg e, by simp [chatTurn, htriv, generationPath, hx]⟩
      | ok t =>
          left
          refine ⟨.str (replaceBreaks t), .str (replaceBreaks t), ?_, ?_⟩
          · by_cases hk : cacheTruthy env.kbCache <;>
              simp [chatTurn, htriv, generationPath, hx, hk, chatInserts]
          · simp [chatTurn, htriv, generationPath, hx]

/-- C7: every chat-history insert the handler ever issues is a single
batch of exactly two rows — the user turn then the assistant turn — for
the request's session; a request dispatched to any of the six recognized
actions issues no chat-history insert; and every response whose body is a
reply was produced together with exactly one such batched insert. -/
theorem chat_pair_batched_writes (env : Env) (b : ReqBody) :
    (∀ p ∈ chatInserts (handler env b).2,
      p.1 = b.sessionId.getD "" ∧
      ∃ u a, p.2 = [⟨"user", .str u⟩, ⟨"assistant", a⟩]) ∧
    ((b.action = some "saveLead" ∨ b.action = some "saveOrder" ∨
      b.action = some "saveConsultation" ∨ b.action = some "saveTicket" ∨
      b.action = some "loadHistory" ∨ b.action = some "getDashboardData" ∨
      b.loadHistory = true) → chatInserts (handler env b).2 = []) ∧
    (∀ v, (handler env b).1.body = .reply v →
      (chatInserts (handler env b).2).length = 1) := by
  by_cases hs : strTruthy b.sessionId
  · by_cases h1 : b.action = some "saveLead"
    · by_cases hud : b.userDetailsPresent <;> simp [handler, hs, h1, hud, chatInserts]
    · by_cases h2 : b.action = some "saveOrder"
      · by_cases hud : b.userDetailsPresent <;>
          simp [handler, hs, h1, h2, hud, chatInserts]
      · by_cases h3 : b.action = some "saveConsultation"
        · by_cases hud : b.userDetailsPresent <;>
            simp [handler, hs, h1, h2, h3, hud, chatInserts]
        · by_cases h4 : b.action = some "saveTicket"
          · by_cases hud : b.userDetailsPresent
            · by_cases hte : env.ticketInsertError <;>
                simp [handler, hs, h1, h2, h3, h4, hud, hte, chatInserts]
            · simp [handler, hs, h1, h2, h3, h4, hud, chatInserts]
          · by_cases hL : b.loadHistory = true ∨ b.action = some "loadHistory"
            · by_cases hre : env.histReadError <;>
                simp [handler, hs, h1, h2, h3, h4, hL, hre, chatInserts]
            · rcases not_or.mp hL with ⟨hL1, hL2⟩
              by_cases h6 : b.action = some "getDashboardData"
              · by_cases hsec : b.adminSecret = env.adminPassword
                · by_cases hde : env.dashReadError <;>
                    simp [handler, hs, h1, h2, h3, h4, hL1, hL2, h6, hsec, hde, chatInserts]
                · simp [handler, hs, h1, h2, h3, h4, hL1, hL2, h6, hsec, chatInserts]
              · by_cases hm : strTruthy b.message
                · have hd : handler env b =
                      chatTurn env (b.sessionId.getD "") (b.message.getD "") b.userName := by
                    simp [handler, hs, h1, h2, h3, h4, hL1, hL2, h6, hm]
                  rcases chatTurn_shape env (b.sessionId.getD "") (b.message.getD "") b.userName with
                    ⟨a, v, hci, hbody⟩ | ⟨hci, m, hbody⟩
                  · refine ⟨?_, ?_, ?_⟩
                    · intro p hp
                      rw [hd, hci] at hp
                      simp only [List.mem_singleton] at hp
                      subst hp
                      exact ⟨rfl, b.message.getD "", a, rfl⟩
                    · intro hor
                      rcases hor with h | h | h | h | h | h | h
                      · exact absurd h h1
                      · exact absurd h h2
                      · exact absurd h h3
                      · exact absurd h h4
                      · exact absurd h hL2
                      · exact absurd h h6
                      · exact absurd h hL1
                    · intro v' hv'
                      rw [hd, hci]
                      rfl
                  · refine ⟨?_, ?_, ?_⟩
                    · intro p hp
                      rw [hd, hci] at hp
                      simp at hp
                    · intro _
                      rw [hd, hci]
                    · intro v' hv'
                      rw [hd] at hv'
                      rw [hbody] at hv'
                      simp at hv'
                · simp [handler, hs, h1, h2, h3, h4, hL1, hL2, h6, hm, chatInserts]
  · simp [handler, hs, chatInserts]

/-- Witness for C7: a trivial chat request writes exactly one batched
pair; a `saveLead` request writes no chat rows. -/
theorem chat_pair_batched_writes_witness :
    (chatInserts (handler {}
      { sessionId := some "s1", message := some "thanks" }).2).length = 1 ∧
    chatInserts (handler {}
      { sessionId := some "s1", action := some "saveLead", userDetailsPresent := true }).2 =
      [] := by
  have h1 := chat_pair_batched_writes {}
    { sessionId := some "s1", message := some "thanks" }
  have h2 := chat_pair_batched_writes {}
    { sessionId := some "s1", action := some "saveLead", userDetailsPresent := true }
  exact ⟨h1.2.2 (.str thanksReply) (by decide), h2.2.1 (Or.inl rfl)⟩

end Nexi
